import Mathlib

/-
  Verification of the heartbeat audio visualizer
  (src/heartbeat.tsx and src/heartbeat.jsx).

  The development shallowly embeds the deterministic parts of the program:
  the EKG waveform function getEKGY, the BPM zone classifier getBpmZone,
  the beat-interval computation, the audio event schedule produced by
  createHeartbeatSound, the BPM text-input blur handler, the throttled
  visual beat, and the start/stop controller of the imperative variant.
  JavaScript numbers are modelled as exact arithmetic (real numbers where
  Math.sin / Math.PI occur, rationals elsewhere); the JavaScript remainder
  operator on numbers (truncated division, result signed like the dividend)
  is modelled explicitly by jsMod. For the beat-interval exactness claim,
  whose subject is the arithmetic itself, the binary64 round-to-nearest
  evaluation of the timer period is modelled explicitly (flAt,
  beatDelayMsFloat), with each rounding step certified correct to within
  half a unit in the last place at its verified binade.
-/

namespace Heartbeat

/-! ## The EKG waveform function (src/heartbeat.tsx lines 245-256) -/

/-- Truncation toward zero of a real number, as used by the JavaScript
remainder operator on numbers. -/
noncomputable def truncJS (q : ℝ) : ℤ := if 0 ≤ q then ⌊q⌋ else ⌈q⌉

/-- JavaScript's binary remainder operator on numbers: a % b = a - b * trunc (a / b).
The result carries the sign of the dividend. -/
noncomputable def jsMod (a b : ℝ) : ℝ := a - b * truncJS (a / b)

/-- The phase computed in the first line of getEKGY:
t = ((x + offset) % bw) / bw. -/
noncomputable def ekgPhase (x offset bw : ℝ) : ℝ := jsMod (x + offset) bw / bw

/-- Body of getEKGY as a function of the phase t, transcribed branch by
branch from src/heartbeat.tsx lines 247-255. -/
noncomputable def getEKGYt (t mid : ℝ) : ℝ :=
  if 0.1 < t ∧ t < 0.18 then mid - Real.sin ((t - 0.1) / 0.08 * Real.pi) * 6
  else if 0.22 < t ∧ t < 0.24 then mid + (t - 0.22) / 0.02 * 9
  else if 0.24 < t ∧ t < 0.28 then mid + 9 - (t - 0.24) / 0.04 * 46
  else if 0.28 < t ∧ t < 0.32 then mid - 37 + (t - 0.28) / 0.04 * 48
  else if 0.32 < t ∧ t < 0.34 then mid + 11 - (t - 0.32) / 0.02 * 11
  else if 0.4 < t ∧ t < 0.52 then mid - Real.sin ((t - 0.4) / 0.12 * Real.pi) * 10
  else mid

/-- getEKGY from src/heartbeat.tsx lines 245-256: compute the phase, then
evaluate the piecewise waveform. -/
noncomputable def getEKGY (x offset bw mid : ℝ) : ℝ :=
  getEKGYt (ekgPhase x offset bw) mid

/-- Linear interpolation from a to b, used to phrase the specification's
segments given by their endpoints and net rise or fall. -/
noncomputable def lerpSeg (a b s : ℝ) : ℝ := a + (b - a) * s

/-- Modelled from the spec: the piecewise reference waveform of section 4.3,
phrased as the spec phrases it — each linear segment by its start value and
net rise or fall (rise 9, fall 46, rise 48 from the previous segment's end,
settle down by 11), each bump as a half-sine of the stated amplitude, and
the baseline mid otherwise. -/
noncomputable def specEKGY (t mid : ℝ) : ℝ :=
  if 0.1 < t ∧ t < 0.18 then
    mid - 6 * Real.sin ((t - 0.1) / 0.08 * Real.pi)
  else if 0.22 < t ∧ t < 0.24 then
    lerpSeg mid (mid + 9) ((t - 0.22) / 0.02)
  else if 0.24 < t ∧ t < 0.28 then
    lerpSeg (mid + 9) (mid + 9 - 46) ((t - 0.24) / 0.04)
  else if 0.28 < t ∧ t < 0.32 then
    lerpSeg (mid + 9 - 46) (mid + 9 - 46 + 48) ((t - 0.28) / 0.04)
  else if 0.32 < t ∧ t < 0.34 then
    lerpSeg (mid + 11) (mid + 11 - 11) ((t - 0.32) / 0.02)
  else if 0.4 < t ∧ t < 0.52 then
    mid - 10 * Real.sin ((t - 0.4) / 0.12 * Real.pi)
  else mid

/-! ## BPM zones (src/heartbeat.tsx lines 370-376) -/

structure BpmZone where
  label : String
  color : String
deriving DecidableEq

def getBpmZone (bpm : ℚ) : BpmZone :=
  if bpm < 60 then ⟨"Bradycardia", "#5b9bd5"⟩
  else if bpm ≤ 100 then ⟨"Resting", "#6abf69"⟩
  else if bpm ≤ 140 then ⟨"Moderate", "#d4a843"⟩
  else if bpm ≤ 170 then ⟨"Vigorous", "#d97a3e"⟩
  else ⟨"Maximum", "#d94040"⟩

/-! ## Beat interval (src/heartbeat.tsx lines 472-484) -/

/-- The timer-period formula (60 / bpm) * 1000 of src/heartbeat.tsx line
473 read in exact arithmetic — the idealized value, not the value the
program computes: the program evaluates the formula in binary64, one
rounding per operation, which beatDelayMsFloat models below. -/
def beatDelayMs (bpm : ℚ) : ℚ := 60 / bpm * 1000

/-- The delay handed to useInterval: the period when playing, none when
stopped (src/heartbeat.tsx line 473). -/
def intervalDelay (isPlaying : Bool) (bpm : ℚ) : Option ℚ :=
  if isPlaying then some (beatDelayMs bpm) else none

/-- One binary64 rounding step: round q to the nearest value on the grid
of floating-point numbers whose unit in the last place is 2 ^ e (integer
significand times 2 ^ e). Mathlib's round breaks ties upward where IEEE
754 breaks ties to even, but every rounding used below is certified to
land strictly within half an ulp of its input, so it is the unique nearest
grid value under either tie rule. -/
def flAt (e : ℤ) (q : ℚ) : ℚ := (round (q / 2 ^ e) : ℚ) * 2 ^ e

/-- The grid with ulp 2 ^ e is the binary64 grid around q exactly when
|q| lies in the binade [2 ^ 52 * 2 ^ e, 2 ^ 53 * 2 ^ e): binary64 carries
53 significand bits. -/
def binadeOK (e : ℤ) (q : ℚ) : Prop :=
  2 ^ 52 * 2 ^ e ≤ |q| ∧ |q| < 2 ^ 53 * 2 ^ e

/-- The timer period as the program actually computes it for an (exactly
representable) integer BPM: the binary64 division 60 / bpm rounded at ulp
2 ^ ed, then the multiplication by 1000 rounded at ulp 2 ^ em (60, 1000
and every integer BPM in [30, 220] are exact binary64 values, so these
two roundings are the only ones the expression performs). -/
def beatDelayMsFloat (ed em : ℤ) (bpm : ℚ) : ℚ :=
  flAt em (flAt ed (60 / bpm) * 1000)

/-! ## Audio synthesis schedule (src/heartbeat.tsx lines 16-47 and 86-175) -/

/-- Audio constants from the AUDIO object in src/heartbeat.tsx. -/
def S1_FREQ_START : ℚ := 55
def S1_FREQ_END : ℚ := 25
def S1_ATTACK : ℚ := 0.008
def S1_DECAY : ℚ := 0.14
def S1_DURATION : ℚ := 0.16
def SUB_FREQ : ℚ := 32
def SUB_ATTACK : ℚ := 0.012
def SUB_DECAY : ℚ := 0.11
def SUB_DURATION : ℚ := 0.13
def SUB_GAIN : ℚ := 0.6
def NOISE_DECAY : ℚ := 0.03
def NOISE_GAIN : ℚ := 0.4
def S2_DELAY : ℚ := 0.13
def S2_FREQ_START : ℚ := 75
def S2_FREQ_END : ℚ := 35
def S2_ATTACK : ℚ := 0.008
def S2_DECAY : ℚ := 0.1
def S2_DURATION : ℚ := 0.12
def S2_GAIN : ℚ := 0.55

/-- The audio-graph nodes allocated by createHeartbeatSound, named as in
the source. -/
inductive NodeId
  | osc1 | g1 | oSub | gSub | noise | ng | o2 | g2
deriving DecidableEq

/-- One scheduling call against the Web Audio API, with the node it
addresses, the value (where there is one) and the audio-clock time. -/
inductive AudioEvent
  | setFreq (n : NodeId) (value time : ℚ)
  | expRampFreq (n : NodeId) (target time : ℚ)
  | setGain (n : NodeId) (value time : ℚ)
  | linRampGain (n : NodeId) (target time : ℚ)
  | expRampGain (n : NodeId) (target time : ℚ)
  | nodeStart (n : NodeId) (time : ℚ)
  | nodeStop (n : NodeId) (time : ℚ)
deriving DecidableEq

/-- The event schedule produced by createHeartbeatSound for a beat
triggered at audio-clock time `time`, transcribed call by call in source
order from src/heartbeat.tsx lines 86-175 (S1, sub-bass, noise transient,
then the delayed S2). -/
def createHeartbeatSound (time : ℚ) : List AudioEvent := [
  .setFreq .osc1 S1_FREQ_START time,
  .expRampFreq .osc1 S1_FREQ_END (time + S1_DECAY),
  .setGain .g1 0 time,
  .linRampGain .g1 1 (time + S1_ATTACK),
  .expRampGain .g1 0.001 (time + S1_DECAY),
  .nodeStart .osc1 time,
  .nodeStop .osc1 (time + S1_DURATION),
  .setFreq .oSub SUB_FREQ time,
  .setGain .gSub 0 time,
  .linRampGain .gSub SUB_GAIN (time + SUB_ATTACK),
  .expRampGain .gSub 0.001 (time + SUB_DECAY),
  .nodeStart .oSub time,
  .nodeStop .oSub (time + SUB_DURATION),
  .setGain .ng NOISE_GAIN time,
  .expRampGain .ng 0.001 (time + NOISE_DECAY),
  .nodeStart .noise time,
  .nodeStop .noise (time + NOISE_DECAY),
  .setFreq .o2 S2_FREQ_START (time + S2_DELAY),
  .expRampFreq .o2 S2_FREQ_END (time + S2_DELAY + S2_DECAY),
  .setGain .g2 0 (time + S2_DELAY),
  .linRampGain .g2 S2_GAIN (time + S2_DELAY + S2_ATTACK),
  .expRampGain .g2 0.001 (time + S2_DELAY + S2_DECAY),
  .nodeStart .o2 (time + S2_DELAY),
  .nodeStop .o2 (time + S2_DELAY + S2_DURATION)]

/-! ## BPM text input and the blur handler (src/heartbeat.tsx lines 556-571) -/

def MIN_BPM : ℤ := 30
def MAX_BPM : ℤ := 220

/-- Value of a nonempty leading run of decimal digits; none when the list
does not begin with a digit. -/
def leadingNat (cs : List Char) : Option ℕ :=
  let ds := cs.takeWhile Char.isDigit
  if ds.isEmpty then none
  else some (ds.foldl (fun a c => 10 * a + (c.toNat - 48)) 0)

/-- Model of JavaScript parseInt(s, 10): skip leading whitespace, read an
optional sign, then the longest run of digits; NaN (none) when no digit
follows. -/
def jsParseInt (s : String) : Option ℤ :=
  let cs := s.data.dropWhile fun c => c = ' ' ∨ c = '\t' ∨ c = '\n' ∨ c = '\r'
  match cs with
  | '-' :: rest => (leadingNat rest).map fun n => -(n : ℤ)
  | '+' :: rest => (leadingNat rest).map fun n => (n : ℤ)
  | _ => (leadingNat cs).map fun n => (n : ℤ)

/-- The two pieces of state the blur handler touches: the committed BPM and
the text shown in the input field. -/
structure InputState where
  bpm : ℤ
  bpmInput : String
deriving DecidableEq

/-- handleInputBlur from src/heartbeat.tsx lines 562-571: parse the text;
on NaN or a value below MIN_BPM commit MIN_BPM and rewrite the text, on a
value above MAX_BPM commit MAX_BPM and rewrite the text, otherwise leave
both unchanged. -/
def handleInputBlur (s : InputState) : InputState :=
  match jsParseInt s.bpmInput with
  | none => ⟨MIN_BPM, "30"⟩
  | some n =>
    if n < MIN_BPM then ⟨MIN_BPM, "30"⟩
    else if n > MAX_BPM then ⟨MAX_BPM, "220"⟩
    else s

/-! ## Throttled visual beat (src/heartbeat.tsx lines 457 and 538-543) -/

def MAX_VISUAL_FLASHES_PER_SEC : ℚ := 3

/-- The derived visual beat: when beatsPerSec = bpm / 60 exceeds the flash
cap, divide the audio beat counter by ceil (beatsPerSec / cap) and floor
(natural division); otherwise the audio beat counter itself. -/
def visualBeat (bpm : ℚ) (beat : ℕ) : ℕ :=
  let beatsPerSec := bpm / 60
  if beatsPerSec > MAX_VISUAL_FLASHES_PER_SEC then
    beat / (⌈beatsPerSec / MAX_VISUAL_FLASHES_PER_SEC⌉).toNat
  else beat

/-! ## The start/stop controller (src/heartbeat.jsx lines 214-244,
    src/heartbeat.tsx lines 509-527) -/

/-- Observable state of the App controller together with the browser's set
of live interval timers: `isPlaying` is the playing flag, `beat` the beat counter,
`iv` the timer id held by the component, `offset` the EKG scroll offset
(a ref owned by the EKG component, untouched by the controller), `active`
the ids of live timers, `nextId` the next fresh timer id. -/
structure AppState where
  isPlaying : Bool
  beat : ℕ
  bpm : ℚ
  iv : Option ℕ
  offset : ℚ
  active : Finset ℕ
  nextId : ℕ

/-- clearInterval: the timer with this id stops being live. -/
def clearIntervalF (s : AppState) (i : ℕ) : AppState :=
  { s with active := s.active.erase i }

/-- setInterval: allocate a fresh live timer, returning its id. -/
def setIntervalF (s : AppState) : AppState × ℕ :=
  ({ s with active := insert s.nextId s.active, nextId := s.nextId + 1 },
   s.nextId)

/-- start (src/heartbeat.jsx lines 223-236): clear any held timer, play the
first beat immediately (incrementing the beat counter), arm a fresh
repeating timer, set the playing flag. The tsx variant (lines 509-523)
likewise plays an immediate beat, increments the counter and sets the flag,
with the timer re-armed by useInterval. -/
def start (s : AppState) : AppState :=
  let s1 := match s.iv with
    | some i => clearIntervalF s i
    | none => s
  let s2 := { s1 with beat := s1.beat + 1 }
  let p := setIntervalF s2
  { p.1 with iv := some p.2, isPlaying := true }

/-- stop (src/heartbeat.jsx lines 238-244): clear the held timer if any,
drop the id, clear the playing flag. The tsx variant (lines 525-527) only
clears the flag, the derived useInterval delay becoming null. -/
def stop (s : AppState) : AppState :=
  match s.iv with
  | some i => { clearIntervalF s i with iv := none, isPlaying := false }
  | none => { s with isPlaying := false }

/-- The timer invariant: the browser's live timers are exactly the one the
component holds (none when `iv` is empty). -/
def TimerInv (s : AppState) : Prop :=
  s.active = s.iv.elim ∅ fun i => {i}

/-! ## Theorems -/

/-- Claim C2: getBpmZone classifies every BPM into the five fixed bands —
below 60 Bradycardia, 60 to 100 Resting, above 100 up to 140 Moderate,
above 140 up to 170 Vigorous, above 170 Maximum — and in particular
45 gives Bradycardia, 60 and 100 Resting, 101 and 140 Moderate, 141 and
170 Vigorous, and 171 Maximum. -/
theorem getBpmZone_bands (bpm : ℚ) :
    (bpm < 60 → getBpmZone bpm = ⟨"Bradycardia", "#5b9bd5"⟩) ∧
    (60 ≤ bpm → bpm ≤ 100 → getBpmZone bpm = ⟨"Resting", "#6abf69"⟩) ∧
    (100 < bpm → bpm ≤ 140 → getBpmZone bpm = ⟨"Moderate", "#d4a843"⟩) ∧
    (140 < bpm → bpm ≤ 170 → getBpmZone bpm = ⟨"Vigorous", "#d97a3e"⟩) ∧
    (170 < bpm → getBpmZone bpm = ⟨"Maximum", "#d94040"⟩) ∧
    (getBpmZone 45).label = "Bradycardia" ∧ (getBpmZone 60).label = "Resting" ∧
    (getBpmZone 100).label = "Resting" ∧ (getBpmZone 101).label = "Moderate" ∧
    (getBpmZone 140).label = "Moderate" ∧ (getBpmZone 141).label = "Vigorous" ∧
    (getBpmZone 170).label = "Vigorous" ∧ (getBpmZone 171).label = "Maximum" := by
  refine ⟨?_, ?_, ?_, ?_, ?_, ?_, ?_, ?_, ?_, ?_, ?_, ?_, ?_⟩
  · intro h; rw [getBpmZone, if_pos h]
  · intro h1 h2; rw [getBpmZone, if_neg (by linarith), if_pos h2]
  · intro h1 h2
    rw [getBpmZone, if_neg (by linarith), if_neg (by linarith), if_pos h2]
  · intro h1 h2
    rw [getBpmZone, if_neg (by linarith), if_neg (by linarith),
      if_neg (by linarith), if_pos h2]
  · intro h
    rw [getBpmZone, if_neg (by linarith), if_neg (by linarith),
      if_neg (by linarith), if_neg (by linarith)]
  all_goals rfl

/-- Witness for C2: the band characterization applied at BPM 45 and 171
with the band hypotheses discharged concretely. -/
theorem getBpmZone_bands_witness :
    getBpmZone 45 = ⟨"Bradycardia", "#5b9bd5"⟩ ∧
    getBpmZone 171 = ⟨"Maximum", "#d94040"⟩ :=
  ⟨(getBpmZone_bands 45).1 (by norm_num),
   (getBpmZone_bands 171).2.2.2.2.1 (by norm_num)⟩

/-- In exact arithmetic the program's formula does satisfy the identity:
(60 / bpm) * 1000 = 60000 / bpm for every nonzero bpm. The beat-interval
divergence established below is therefore exclusively binary64 rounding,
not the formula. -/
theorem beatDelayMs_exact_arith (bpm : ℚ) (h0 : bpm ≠ 0) :
    beatDelayMs bpm = 60000 / bpm := by
  rw [beatDelayMs]
  field_simp
  norm_num

/-- Claim C3, evaluated at the failing input BPM = 33: the period the
program arms is the binary64 evaluation of (60 / 33) * 1000 — the division
rounded at ulp 2 ^ -52 (60/33 lies in the binade [1, 2)) and the product
rounded at ulp 2 ^ -42 (both the product and 60000/33 lie in [1024, 2048))
— and although the formula in exact arithmetic gives exactly 60000 / 33,
the computed period is not 60000 / 33, and is not even the binary64 value
nearest 60000 / 33: it falls one ulp below it. Each binade is verified and
each rounding step is certified within half an ulp of its input, so flAt
here is the unique round-to-nearest result under either tie rule. -/
theorem beatDelay_ieee_divergence_at_33 :
    beatDelayMs 33 = 60000 / 33 ∧
    (binadeOK (-52) ((60 : ℚ) / 33) ∧
      |flAt (-52) ((60 : ℚ) / 33) - 60 / 33| < 2 ^ (-52 : ℤ) / 2) ∧
    (binadeOK (-42) (flAt (-52) ((60 : ℚ) / 33) * 1000) ∧
      |flAt (-42) (flAt (-52) ((60 : ℚ) / 33) * 1000) -
        flAt (-52) ((60 : ℚ) / 33) * 1000| < 2 ^ (-42 : ℤ) / 2) ∧
    (binadeOK (-42) ((60000 : ℚ) / 33) ∧
      |flAt (-42) ((60000 : ℚ) / 33) - 60000 / 33| < 2 ^ (-42 : ℤ) / 2) ∧
    beatDelayMsFloat (-52) (-42) 33 ≠ 60000 / 33 ∧
    beatDelayMsFloat (-52) (-42) 33 ≠ flAt (-42) ((60000 : ℚ) / 33) := by
  have e52 : (2 : ℚ) ^ (-52 : ℤ) = 1 / 4503599627370496 := by norm_num
  have e42 : (2 : ℚ) ^ (-42 : ℤ) = 1 / 4398046511104 := by norm_num
  have r1 : round ((60 : ℚ) / 33 / 2 ^ (-52 : ℤ)) = 8188362958855447 := by
    rw [e52, round_eq, Int.floor_eq_iff] <;> norm_num
  have r2 : round ((((8188362958855447 : ℤ) : ℚ)) * 2 ^ (-52 : ℤ) * 1000 /
      2 ^ (-42 : ℤ)) = 7996448202007272 := by
    rw [e52, e42, round_eq, Int.floor_eq_iff] <;> norm_num
  have r3 : round ((60000 : ℚ) / 33 / 2 ^ (-42 : ℤ)) = 7996448202007273 := by
    rw [e42, round_eq, Int.floor_eq_iff] <;> norm_num
  unfold binadeOK beatDelayMsFloat flAt beatDelayMs
  rw [r1, r2, r3, e52, e42]
  refine ⟨by norm_num, ⟨⟨?_, ?_⟩, ?_⟩, ⟨⟨?_, ?_⟩, ?_⟩, ⟨⟨?_, ?_⟩, ?_⟩, ?_, ?_⟩
  all_goals first
    | (rw [abs_lt]; constructor <;> norm_num)
    | (rw [le_abs]; exact Or.inl (by norm_num))
    | norm_num

/-- Claim C5: for every trigger time t, the S2 component begins exactly
130 ms after t (0.13 is the only start time of oscillator o2, and
createHeartbeatSound takes no BPM input, so this holds regardless of BPM):
o2 starts at t + 0.13, its frequency is set to 75 there and ramps to 35 by
100 ms after its own start, its gain decays to near zero by 100 ms after
its own start, and it stops 120 ms after its own start. -/
theorem createHeartbeatSound_s2_schedule (t : ℚ) :
    AudioEvent.nodeStart .o2 (t + 0.13) ∈ createHeartbeatSound t ∧
    (∀ u, AudioEvent.nodeStart .o2 u ∈ createHeartbeatSound t → u = t + 0.13) ∧
    AudioEvent.setFreq .o2 75 (t + 0.13) ∈ createHeartbeatSound t ∧
    AudioEvent.expRampFreq .o2 35 (t + 0.13 + 0.1) ∈ createHeartbeatSound t ∧
    AudioEvent.expRampGain .g2 0.001 (t + 0.13 + 0.1) ∈ createHeartbeatSound t ∧
    AudioEvent.nodeStop .o2 (t + 0.13 + 0.12) ∈ createHeartbeatSound t := by
  refine ⟨?_, ?_, ?_, ?_, ?_, ?_⟩
  · simp [createHeartbeatSound, S2_DELAY]
  · intro u hu
    simp [createHeartbeatSound, S2_DELAY] at hu
    linarith [hu]
  · simp [createHeartbeatSound, S2_DELAY, S2_FREQ_START]
  · simp [createHeartbeatSound, S2_DELAY, S2_DECAY, S2_FREQ_END]
  · simp [createHeartbeatSound, S2_DELAY, S2_DECAY]
  · simp [createHeartbeatSound, S2_DELAY, S2_DURATION]

/-- Witness for C5: the S2 start-time uniqueness applied at t = 0 to the
concrete start event of o2. -/
theorem createHeartbeatSound_s2_witness : (0 : ℚ) + 13/100 = 0 + 0.13 :=
  (createHeartbeatSound_s2_schedule 0).2.1 (0 + 13/100)
    (by norm_num [createHeartbeatSound, S2_DELAY])

/-- Claim C6: on blur of the BPM input, text parsing to an integer inside
[30, 220] is kept (state unchanged), text parsing below 30 or not parsing
at all is clamped to 30 with the shown text rewritten to "30", text parsing
above 220 is clamped to 220 with the text rewritten to "220"; in particular
"5" blurs to BPM 30 and "999" blurs to BPM 220. -/
theorem handleInputBlur_clamps (s : InputState) (n : ℤ) :
    (jsParseInt s.bpmInput = some n → 30 ≤ n → n ≤ 220 →
      handleInputBlur s = s) ∧
    (jsParseInt s.bpmInput = some n → n < 30 →
      handleInputBlur s = ⟨30, "30"⟩) ∧
    (jsParseInt s.bpmInput = none → handleInputBlur s = ⟨30, "30"⟩) ∧
    (jsParseInt s.bpmInput = some n → 220 < n →
      handleInputBlur s = ⟨220, "220"⟩) ∧
    handleInputBlur ⟨162, "5"⟩ = ⟨30, "30"⟩ ∧
    handleInputBlur ⟨162, "999"⟩ = ⟨220, "220"⟩ := by
  refine ⟨?_, ?_, ?_, ?_, by decide, by decide⟩
  · intro hp h1 h2
    simp only [handleInputBlur, hp, MIN_BPM, MAX_BPM]
    rw [if_neg (by omega), if_neg (by omega)]
  · intro hp h1
    simp only [handleInputBlur, hp, MIN_BPM, MAX_BPM]
    rw [if_pos (by omega)]
  · intro hp
    simp only [handleInputBlur, hp, MIN_BPM]
  · intro hp h1
    simp only [handleInputBlur, hp, MIN_BPM, MAX_BPM]
    rw [if_neg (by omega), if_pos (by omega)]

/-- Witness for C6: the in-range and both clamping branches applied to the
concrete inputs "72", "5" and "999". -/
theorem handleInputBlur_clamps_witness :
    handleInputBlur ⟨72, "72"⟩ = ⟨72, "72"⟩ ∧
    handleInputBlur ⟨162, "5"⟩ = ⟨30, "30"⟩ ∧
    handleInputBlur ⟨162, "999"⟩ = ⟨220, "220"⟩ :=
  ⟨(handleInputBlur_clamps ⟨72, "72"⟩ 72).1 (by decide) (by decide) (by decide),
   (handleInputBlur_clamps ⟨162, "5"⟩ 5).2.1 (by decide) (by decide),
   (handleInputBlur_clamps ⟨162, "999"⟩ 999).2.2.2.1 (by decide) (by decide)⟩

/-- At BPM 220 the throttle divisor is 2: beatsPerSec = 11/3 exceeds 3 and
ceil ((11/3) / 3) = ceil (11/9) = 2, so the visual beat is the audio beat
counter halved (floored). -/
theorem visualBeat_at_220 (n : ℕ) : visualBeat 220 n = n / 2 := by
  rw [visualBeat]
  simp only [MAX_VISUAL_FLASHES_PER_SEC]
  rw [if_pos (by norm_num)]
  have h : ⌈(220 : ℚ) / 60 / 3⌉ = 2 := by
    rw [Int.ceil_eq_iff] <;> norm_num
  rw [h]
  rfl

/-- Claim C7: at BPM 220 the audio beat fires about 3.67 times per second
(three beat intervals fit in one second, four do not), yet over the at most
five consecutive audio-beat-counter values that one second can span, the
throttled visual beat takes at most 3 distinct values. -/
theorem visualBeat_throttled_220 :
    (3 : ℚ) * (60 / 220) < 1 ∧ (1 : ℚ) ≤ 4 * (60 / 220) ∧
    ∀ b : ℕ, (((Finset.range 5).image fun i => visualBeat 220 (b + i))).card ≤ 3 := by
  refine ⟨by norm_num, by norm_num, ?_⟩
  intro b
  have hsub : ((Finset.range 5).image fun i => visualBeat 220 (b + i)) ⊆
      {b / 2, b / 2 + 1, b / 2 + 2} := by
    intro y hy
    simp only [Finset.mem_image, Finset.mem_range] at hy
    obtain ⟨i, hi, hv⟩ := hy
    rw [visualBeat_at_220] at hv
    simp only [Finset.mem_insert, Finset.mem_singleton]
    omega
  refine le_trans (Finset.card_le_card hsub) ?_
  refine le_trans (Finset.card_insert_le _ _) ?_
  have h2 : ({b / 2 + 1, b / 2 + 2} : Finset ℕ).card ≤ 2 :=
    le_trans (Finset.card_insert_le _ _) (by simp)
  omega

/-- Shifting the dividend by the (positive) divisor leaves jsMod unchanged
as long as the dividend is nonnegative. -/
theorem jsMod_add_self (a b : ℝ) (hb : 0 < b) (ha : 0 ≤ a) :
    jsMod (a + b) b = jsMod a b := by
  rw [jsMod, jsMod, truncJS, truncJS]
  have hq : 0 ≤ a / b := div_nonneg ha hb.le
  have e : (a + b) / b = a / b + 1 := by rw [add_div, div_self hb.ne']
  rw [e, if_pos (by linarith), if_pos hq]
  have hf : ⌊a / b + 1⌋ = ⌊a / b⌋ + 1 := by exact_mod_cast Int.floor_add_one (a / b)
  rw [hf]
  push_cast
  ring

/-- For a negative dividend and a positive divisor, jsMod is nonpositive
(JavaScript's remainder carries the dividend's sign). -/
theorem jsMod_nonpos (a b : ℝ) (hb : 0 < b) (ha : a < 0) : jsMod a b ≤ 0 := by
  rw [jsMod, truncJS]
  have hq : a / b < 0 := div_neg_of_neg_of_pos ha hb
  rw [if_neg (by linarith)]
  have h2 : a / b ≤ (⌈a / b⌉ : ℝ) := Int.le_ceil (a / b)
  have h3 : b * (a / b) = a := by field_simp
  have h4 : b * (a / b) ≤ b * (⌈a / b⌉ : ℝ) := mul_le_mul_of_nonneg_left h2 hb.le
  linarith

/-- Claim C1: for every x, offset, bw > 0 and mid, getEKGY agrees with the
specification's piecewise reference waveform evaluated at the phase
t = ((x + offset) % bw) / bw. -/
theorem getEKGY_matches_specEKGY (x offset bw mid : ℝ) (hbw : 0 < bw) :
    getEKGY x offset bw mid = specEKGY (jsMod (x + offset) bw / bw) mid := by
  rw [getEKGY, ekgPhase]
  rw [getEKGYt, specEKGY, lerpSeg, lerpSeg, lerpSeg, lerpSeg]
  split_ifs <;> ring

/-- Witness for C1: the agreement at x = 15, offset = 0, bw = 100, mid = 0,
a point whose phase 0.15 lies inside the first bump interval. -/
theorem getEKGY_matches_specEKGY_witness :
    (0 : ℝ) < 100 ∧ getEKGY 15 0 100 0 = specEKGY (jsMod (15 + 0) 100 / 100) 0 :=
  ⟨by norm_num, getEKGY_matches_specEKGY 15 0 100 0 (by norm_num)⟩

/-- Counterexample to claim C4 as stated: periodicity fails when x + offset
is negative. At x = -85, offset = 0, bw = 100, mid = 0 the phase is -0.85,
which hits the baseline, while x + bw = 15 has phase 0.15, inside the first
half-sine bump, so the two values differ. -/
theorem getEKGY_periodicity_fails :
    ¬ (getEKGY (-85) 0 100 0 = getEKGY (-85 + 100) 0 100 0) := by
  intro heq
  have hL : getEKGY (-85) 0 100 0 = 0 := by
    rw [getEKGY, ekgPhase]
    have h1 : jsMod ((-85 : ℝ) + 0) 100 = -85 := by
      rw [jsMod, truncJS, if_neg (by norm_num)]
      have hc : ⌈((-85 : ℝ) + 0) / 100⌉ = 0 := by
        rw [Int.ceil_eq_iff] <;> norm_num
      rw [hc]
      norm_num
    rw [h1, getEKGYt]
    norm_num
  have hR : getEKGY ((-85 : ℝ) + 100) 0 100 0 < 0 := by
    rw [getEKGY, ekgPhase]
    have h1 : jsMod ((-85 : ℝ) + 100 + 0) 100 = 15 := by
      rw [jsMod, truncJS, if_pos (by norm_num)]
      have hf : ⌊((-85 : ℝ) + 100 + 0) / 100⌋ = 0 := by
        rw [Int.floor_eq_iff] <;> norm_num
      rw [hf]
      norm_num
    rw [h1, getEKGYt, if_pos (by norm_num)]
    have hs : 0 < Real.sin ((15 / 100 - 0.1) / 0.08 * Real.pi) := by
      apply Real.sin_pos_of_pos_of_lt_pi
      · nlinarith [Real.pi_pos]
      · nlinarith [Real.pi_pos]
    linarith
  rw [heq] at hL
  linarith

/-- Claim C4 amended: the waveform is periodic in x with period bw for
every x, offset, mid and bw > 0 such that x + offset is nonnegative (the
renderer only ever evaluates it there: x ranges over pixels 0..W-1 and the
scroll offset stays in [0, bw)). For negative x + offset the JavaScript
remainder yields a negative phase and periodicity can fail. -/
theorem getEKGY_periodic_nonneg (x offset bw mid : ℝ) (hbw : 0 < bw)
    (hx : 0 ≤ x + offset) :
    getEKGY (x + bw) offset bw mid = getEKGY x offset bw mid := by
  rw [getEKGY, getEKGY, ekgPhase, ekgPhase]
  have e : x + bw + offset = x + offset + bw := by ring
  rw [e, jsMod_add_self (x + offset) bw hbw hx]

/-- Witness for C4 (amended): periodicity at x = 15, offset = 0, bw = 100. -/
theorem getEKGY_periodic_nonneg_witness :
    getEKGY (15 + 100) 0 100 0 = getEKGY 15 0 100 0 :=
  getEKGY_periodic_nonneg 15 0 100 0 (by norm_num) (by norm_num)

/-- The waveform body is bounded by [mid - 37, mid + 11] for every phase. -/
theorem getEKGYt_bounded (t mid : ℝ) :
    mid - 37 ≤ getEKGYt t mid ∧ getEKGYt t mid ≤ mid + 11 := by
  rw [getEKGYt]
  split_ifs with h1 h2 h3 h4 h5 h6
  · constructor <;>
      nlinarith [Real.sin_le_one ((t - 0.1) / 0.08 * Real.pi),
        Real.neg_one_le_sin ((t - 0.1) / 0.08 * Real.pi)]
  · have e : (t - 0.22) / 0.02 * 9 = 450 * (t - 0.22) := by ring
    rw [e]
    constructor <;> linarith [h2.1, h2.2]
  · have e : (t - 0.24) / 0.04 * 46 = 1150 * (t - 0.24) := by ring
    rw [e]
    constructor <;> linarith [h3.1, h3.2]
  · have e : (t - 0.28) / 0.04 * 48 = 1200 * (t - 0.28) := by ring
    rw [e]
    constructor <;> linarith [h4.1, h4.2]
  · have e : (t - 0.32) / 0.02 * 11 = 550 * (t - 0.32) := by ring
    rw [e]
    constructor <;> linarith [h5.1, h5.2]
  · constructor <;>
      nlinarith [Real.sin_le_one ((t - 0.4) / 0.12 * Real.pi),
        Real.neg_one_le_sin ((t - 0.4) / 0.12 * Real.pi)]
  · constructor <;> linarith

/-- Claim C10: getEKGY is total and bounded — for every x, offset, mid and
bw > 0 its value lies in [mid - 37, mid + 11]; when x + offset is negative
(the JavaScript remainder then gives a nonpositive phase) it returns
exactly mid; and whenever the phase lies outside all six listed intervals
it returns exactly mid. -/
theorem getEKGY_total_bounded (x offset bw mid : ℝ) (hbw : 0 < bw) :
    (mid - 37 ≤ getEKGY x offset bw mid ∧ getEKGY x offset bw mid ≤ mid + 11) ∧
    (x + offset < 0 → getEKGY x offset bw mid = mid) ∧
    (∀ t, t = ekgPhase x offset bw →
      ¬(0.1 < t ∧ t < 0.18) → ¬(0.22 < t ∧ t < 0.24) →
      ¬(0.24 < t ∧ t < 0.28) → ¬(0.28 < t ∧ t < 0.32) →
      ¬(0.32 < t ∧ t < 0.34) → ¬(0.4 < t ∧ t < 0.52) →
      getEKGY x offset bw mid = mid) := by
  refine ⟨getEKGYt_bounded _ _, ?_, ?_⟩
  · intro hneg
    have hm : jsMod (x + offset) bw ≤ 0 := jsMod_nonpos (x + offset) bw hbw hneg
    have ht : ekgPhase x offset bw ≤ 0 := by
      rw [ekgPhase]
      exact div_nonpos_iff.mpr (Or.inr ⟨hm, hbw.le⟩)
    rw [getEKGY, getEKGYt]
    rw [if_neg (by rintro ⟨ha, -⟩; linarith), if_neg (by rintro ⟨ha, -⟩; linarith),
      if_neg (by rintro ⟨ha, -⟩; linarith), if_neg (by rintro ⟨ha, -⟩; linarith),
      if_neg (by rintro ⟨ha, -⟩; linarith), if_neg (by rintro ⟨ha, -⟩; linarith)]
  · intro t htdef hn1 hn2 hn3 hn4 hn5 hn6
    subst htdef
    rw [getEKGY, getEKGYt]
    rw [if_neg hn1, if_neg hn2, if_neg hn3, if_neg hn4, if_neg hn5, if_neg hn6]

/-- Witness for C10: the bounds at x = 1, offset = 0, bw = 100, mid = 0. -/
theorem getEKGY_total_bounded_witness :
    (0 : ℝ) - 37 ≤ getEKGY 1 0 100 0 ∧ getEKGY 1 0 100 0 ≤ 0 + 11 :=
  ⟨(getEKGY_total_bounded 1 0 100 0 (by norm_num)).1.1,
   (getEKGY_total_bounded 1 0 100 0 (by norm_num)).1.2⟩

/-- start preserves the timer invariant: it clears the held timer before
arming the fresh one, so the live set returns to a singleton. -/
theorem timerInv_start (s : AppState) (h : TimerInv s) : TimerInv (start s) := by
  obtain ⟨pl, beat, bpm, iv, off, act, nid⟩ := s
  cases iv with
  | none =>
    simp only [TimerInv, Option.elim] at h
    simp [start, setIntervalF, TimerInv, h]
  | some i =>
    simp only [TimerInv, Option.elim] at h
    simp [start, setIntervalF, clearIntervalF, TimerInv, h,
      Finset.erase_singleton]

/-- Under the timer invariant at most one interval timer is live. -/
theorem timerInv_card (s : AppState) (h : TimerInv s) : s.active.card ≤ 1 := by
  rw [TimerInv] at h
  cases hiv : s.iv with
  | none => rw [hiv] at h; simp [h]
  | some i => rw [hiv] at h; simp [h]

/-- Claim C8: calling stop while already stopped (playing flag down, no
timer held) is a no-op — the whole state, timer, BPM, beat counter and
playing flag included, is unchanged — and any number of repeated start
calls without an intervening stop leaves at most one live beat timer. -/
theorem stop_noop_and_no_duplicate_timers :
    (∀ s : AppState, s.isPlaying = false → s.iv = none → stop s = s) ∧
    (∀ (s : AppState) (n : ℕ), TimerInv s → (start^[n] s).active.card ≤ 1) := by
  constructor
  · intro s h1 h2
    obtain ⟨pl, beat, bpm, iv, off, act, nid⟩ := s
    simp only at h1 h2
    subst h1
    subst h2
    simp [stop]
  · intro s n h
    have hInv : TimerInv (start^[n] s) := by
      induction n with
      | zero => simpa using h
      | succ k ih =>
        rw [Function.iterate_succ_apply']
        exact timerInv_start _ ih
    exact timerInv_card _ hInv

/-- Witness for C8: a stopped state with no live timers is fixed by stop,
and three consecutive starts from it leave at most one live timer. -/
theorem stop_noop_and_no_duplicate_timers_witness :
    stop (AppState.mk false 0 72 none 0 ∅ 0) = AppState.mk false 0 72 none 0 ∅ 0 ∧
    (start^[3] (AppState.mk false 0 72 none 0 ∅ 0)).active.card ≤ 1 :=
  ⟨stop_noop_and_no_duplicate_timers.1 _ rfl rfl,
   stop_noop_and_no_duplicate_timers.2 _ 3 rfl⟩

/-- Counterexample to claim C9 as stated: the start transition does not
leave the beat counter unchanged. start plays the first beat immediately
and increments the counter, so from a stopped state with beat counter 5 the
counter becomes 6. -/
theorem start_changes_beat_counter :
    ¬ ((start (AppState.mk false 5 72 none 0 ∅ 0)).beat = 5) := by
  simp [start, setIntervalF]

/-- Claim C9 amended: the start and stop transitions never reset the beat
counter or the waveform scroll offset. stop leaves the beat counter, the
scroll offset and the BPM unchanged; start leaves the scroll offset and the
BPM unchanged and increments the beat counter by exactly one (the first
beat it plays immediately), so both retain their prior values across a stop
and a subsequent restart. -/
theorem transitions_never_reset_beat_or_offset (s : AppState) :
    (stop s).beat = s.beat ∧ (stop s).offset = s.offset ∧
    (stop s).bpm = s.bpm ∧ (start s).offset = s.offset ∧
    (start s).bpm = s.bpm ∧ (start s).beat = s.beat + 1 := by
  obtain ⟨pl, beat, bpm, iv, off, act, nid⟩ := s
  cases iv <;> simp [start, stop, setIntervalF, clearIntervalF]

end Heartbeat
